import Mathlib

/-!
Verification development for the ebay-backend monitoring core.

The definitions below are a shallow embedding of the JavaScript sources:
`src/services/monitoringService.js` (checkProduct), `src/adapters/ebayAdapter.js`
(retryWithBackoff, extractItemId, fetchEbayItem), `src/services/cronService.js`
(frequencyToCron) and `src/services/puppeteerScraper.js` (seller-identity
extraction, store-listing scraping).  JavaScript numbers are modelled as
rationals, strings as `String`, fallible asynchronous calls as `Except`/`Option`
inputs, and JS truthiness of strings/numbers is made explicit
(`= ""` / `= 0` tests) wherever the code relies on it.
-/

namespace EbayBackend

/-- Stock-state strings used by the adapters and the monitoring service. -/
inductive StockStatus
  | in_stock
  | out_of_stock
  | low_stock
  | unknown
deriving DecidableEq, Repr

/-- The alert `type` values emitted by `checkProduct`. -/
inductive AlertType
  | price_increase
  | price_decrease
  | out_of_stock
  | back_in_stock
  | supplier_unavailable
  | competitor_price
deriving DecidableEq, Repr

/-- Alert severities (models the `severity` enum of the Alert schema). -/
inductive Severity
  | low
  | medium
  | high
  | critical
deriving DecidableEq, Repr

/-- The `Mixed` payloads the code passes as `oldValue`/`newValue` to `createAlert`:
prices, literal strings such as `'ebay'`/`'supplier'`, or stock states. -/
inductive Value
  | num (q : ℚ)
  | str (s : String)
  | stock (st : StockStatus)
deriving DecidableEq, Repr

/-- One alert record as created by `createAlert` (message text omitted). -/
structure Alert where
  type : AlertType
  oldValue : Value
  newValue : Value
  severity : Severity
deriving DecidableEq, Repr

/-- The `source` field of a PriceHistory record. -/
inductive Source
  | ebay
  | supplier
  | competitor
deriving DecidableEq, Repr

/-- One PriceHistory record as created by `checkProduct`. -/
structure HistoryEntry where
  source : Source
  price : ℚ
  stock : StockStatus
deriving DecidableEq, Repr

/-- The per-alert-type enable flags of the Settings schema (`alertTypes`). -/
structure AlertTypes where
  priceIncrease : Bool
  priceDecrease : Bool
  outOfStock : Bool
  supplierUnavailable : Bool
  competitorPrice : Bool
deriving DecidableEq, Repr

/-- The tenant settings consulted by `checkProduct`. -/
structure Settings where
  priceChangeThreshold : ℚ
  alertTypes : AlertTypes
deriving DecidableEq, Repr

/-- The competitor `summary` fields that `checkProduct` reads. -/
structure CompetitorSummary where
  lowestPrice : ℚ
  sellerName : String
deriving DecidableEq, Repr

/-- Result of `fetchCompetitorInsights` when non-null: listings (only emptiness
matters to `checkProduct`, entries kept as opaque ids) and an optional summary. -/
structure Insights where
  listings : List String
  summary : Option CompetitorSummary
deriving DecidableEq, Repr

/-- The Product fields read or written by `checkProduct`. -/
structure Product where
  title : String
  images : List String
  ebayPrice : ℚ
  stockStatus : StockStatus
  supplierUrl : Option String
  supplierPrice : ℚ
  supplierStockStatus : StockStatus
  competitorListings : List String
  competitorStats : Option CompetitorSummary
deriving DecidableEq, Repr

/-- A successful fetch result (`ebayData` / `supplierData`): the fields
`checkProduct` consumes. -/
structure Snapshot where
  title : String
  price : ℚ
  stock : StockStatus
  images : List String
deriving DecidableEq, Repr

/-- The upstream outcomes of one `checkProduct` run: the eBay adapter and the
supplier adapter either return a snapshot or throw; `fetchCompetitorInsights`
returns insights or null (it never throws). -/
structure Fetches where
  ebay : Except Unit Snapshot
  supplier : Except Unit Snapshot
  competitor : Option Insights
deriving Repr

/-- `settings?.priceChangeThreshold || process.env.PRICE_CHANGE_THRESHOLD || 5`
with the environment variable unset: a falsy (zero) stored threshold falls
through to the default 5. -/
def resolvedThreshold (s : Settings) : ℚ :=
  if s.priceChangeThreshold = 0 then 5 else s.priceChangeThreshold

/-- The price-change branch of `checkProduct` (monitoringService lines 92–114 for
the eBay source and the textually identical lines 173–195 for the supplier
source; the message string is omitted). -/
def priceChangeAlerts (threshold oldPrice newPrice : ℚ) (flags : AlertTypes) :
    List Alert :=
  if newPrice ≠ oldPrice ∧ oldPrice > 0 then
    let percentChange := (newPrice - oldPrice) / oldPrice * 100
    if |percentChange| ≥ threshold then
      if (if newPrice > oldPrice then flags.priceIncrease else flags.priceDecrease) then
        [{ type := if newPrice > oldPrice then .price_increase else .price_decrease,
           oldValue := .num oldPrice,
           newValue := .num newPrice,
           severity := if |percentChange| > 10 then .high else .medium }]
      else []
    else []
  else []

/-- The stock-change branch of `checkProduct` (lines 117–142 for the eBay source
with `sourceTag = "ebay"`, `oosSeverity = high`; lines 197–222 for the supplier
source with `sourceTag = "supplier"`, `oosSeverity = critical`). -/
def stockChangeAlerts (sourceTag : String) (oosSeverity : Severity)
    (oldStock newStock : StockStatus) (flags : AlertTypes) : List Alert :=
  if newStock ≠ oldStock then
    if flags.outOfStock then
      if newStock = .out_of_stock then
        [{ type := .out_of_stock, oldValue := .str sourceTag,
           newValue := .stock oldStock, severity := oosSeverity }]
      else if oldStock = .out_of_stock then
        [{ type := .back_in_stock, oldValue := .stock oldStock,
           newValue := .str sourceTag, severity := .medium }]
      else []
    else []
  else []

/-- JS truthiness of `product.supplierUrl`: present and non-empty. -/
def hasSupplierUrl (p : Product) : Bool :=
  match p.supplierUrl with
  | some u => u ≠ ""
  | none => false

/-- The eBay branch of `checkProduct` (lines 86–164): on a successful fetch,
price and stock alerts against the stored values, then product updates and one
PriceHistory record; on a thrown fetch, the error is caught and nothing happens. -/
def ebayStep (threshold : ℚ) (flags : AlertTypes) (p : Product) :
    Except Unit Snapshot → Product × List Alert × List HistoryEntry
  | .error _ => (p, [], [])
  | .ok ebayData =>
    let alerts := priceChangeAlerts threshold p.ebayPrice ebayData.price flags ++
      stockChangeAlerts "ebay" .high p.stockStatus ebayData.stock flags
    let p' : Product :=
      { p with
        ebayPrice := ebayData.price
        stockStatus := ebayData.stock
        title := ebayData.title
        images := if ebayData.images ≠ [] then ebayData.images else p.images }
    (p', alerts, [{ source := .ebay, price := ebayData.price, stock := ebayData.stock }])

/-- The supplier branch of `checkProduct` (lines 166–257), entered only when the
product has a supplier URL.  `oldSupplierPrice`/`oldSupplierStock` are the
values captured at the top of `checkProduct`.  On a thrown fetch the catch
block emits `supplier_unavailable` when enabled and the stored state was not
already `unknown`, then sets the state to `unknown`. -/
def supplierStep (threshold : ℚ) (flags : AlertTypes)
    (oldSupplierPrice : ℚ) (oldSupplierStock : StockStatus) (p : Product) :
    Except Unit Snapshot → Product × List Alert × List HistoryEntry
  | .ok supplierData =>
    let alerts := priceChangeAlerts threshold oldSupplierPrice supplierData.price flags ++
      stockChangeAlerts "supplier" .critical oldSupplierStock supplierData.stock flags
    ({ p with
        supplierPrice := supplierData.price
        supplierStockStatus := supplierData.stock },
     alerts,
     [{ source := .supplier, price := supplierData.price, stock := supplierData.stock }])
  | .error _ =>
    let alerts :=
      if flags.supplierUnavailable ∧ oldSupplierStock ≠ .unknown then
        [{ type := .supplier_unavailable, oldValue := .str "available",
           newValue := .str "unavailable", severity := .high }]
      else []
    ({ p with supplierStockStatus := .unknown }, alerts, [])

/-- The competitor branch of `checkProduct` (lines 259–300).  Truthiness of
`cheapest.lowestPrice && product.ebayPrice` is the non-zero test; `p` is the
product after the eBay update, as in the code. -/
def competitorStep (flags : AlertTypes) (competitorAlertPercent : ℚ) (p : Product) :
    Option Insights → Product × List Alert × List HistoryEntry
  | none => (p, [], [])
  | some insights =>
    let p1 := if insights.listings ≠ [] then
        { p with competitorListings := insights.listings } else p
    match insights.summary with
    | none => (p1, [], [])
    | some cheapest =>
      let p2 := { p1 with competitorStats := some cheapest }
      if cheapest.lowestPrice ≠ 0 ∧ p2.ebayPrice ≠ 0 then
        let difference := p2.ebayPrice - cheapest.lowestPrice
        let percentDifference := difference / p2.ebayPrice * 100
        let alerts :=
          if flags.competitorPrice ∧ difference > 0 ∧
              percentDifference ≥ competitorAlertPercent then
            [{ type := .competitor_price, oldValue := .num p2.ebayPrice,
               newValue := .num cheapest.lowestPrice,
               severity := if percentDifference > 10 then .high else .medium }]
          else []
        (p2, alerts, [{ source := .competitor, price := cheapest.lowestPrice,
                        stock := .in_stock }])
      else (p2, [], [])

/-- The outcome of one `checkProduct` run: the updated product, the alerts
created, and the PriceHistory records appended, in order. -/
structure CheckResult where
  product : Product
  alerts : List Alert
  history : List HistoryEntry
deriving DecidableEq, Repr

/-- `checkProduct(product, settings)` from monitoringService.js, with the three
upstream calls abstracted as `Fetches`.  `COMPETITOR_PRICE_ALERT_PERCENT` is
unset, so the competitor alert percent is 3. -/
def checkProduct (settings : Settings) (p : Product) (f : Fetches) : CheckResult :=
  let priceChangeThreshold := resolvedThreshold settings
  let competitorAlertPercent : ℚ := 3
  let oldSupplierPrice := p.supplierPrice
  let oldSupplierStock := p.supplierStockStatus
  let flags := settings.alertTypes
  let r1 := ebayStep priceChangeThreshold flags p f.ebay
  let r2 :=
    if hasSupplierUrl p then
      supplierStep priceChangeThreshold flags oldSupplierPrice oldSupplierStock r1.1 f.supplier
    else (r1.1, [], [])
  let r3 := competitorStep flags competitorAlertPercent r2.1 f.competitor
  { product := r3.1,
    alerts := r1.2.1 ++ r2.2.1 ++ r3.2.1,
    history := r1.2.2 ++ r2.2.2 ++ r3.2.2 }

/-- `frequencyToCron(frequencyMinutes)` from cronService.js. -/
def frequencyToCron (frequencyMinutes : ℤ) : String :=
  let minutes := max 15 frequencyMinutes
  if minutes < 60 then
    "*/" ++ toString minutes ++ " * * * *"
  else
    let hours := minutes / 60
    if hours < 24 then
      "0 */" ++ toString hours ++ " * * *"
    else
      "0 0 * * *"

/-- The retry loop of `retryWithBackoff` (ebayAdapter.js lines 11–26), unrolled
on the remaining iteration count.  `fn i` is the outcome of invoking the
operation on 0-indexed attempt `i`.  Returns the delivered outcome (`none`
models the undefined return of a zero-iteration loop), the number of times the
operation was invoked, and the list of waits performed, in order. -/
def retryGo {α : Type} (fn : ℕ → Except String α) (maxRetries baseDelay : ℕ) :
    ℕ → ℕ → Option (Except String α) × ℕ × List ℕ
  | 0, _ => (none, 0, [])
  | fuel + 1, attempt =>
    match fn attempt with
    | .ok a => (some (.ok a), 1, [])
    | .error e =>
      if attempt = maxRetries - 1 then
        (some (.error e), 1, [])
      else
        let r := retryGo fn maxRetries baseDelay fuel (attempt + 1)
        (r.1, r.2.1 + 1, baseDelay * 2 ^ attempt :: r.2.2)

/-- `retryWithBackoff(fn, maxRetries, baseDelay)`: run the loop from attempt 0
with `maxRetries` iterations available. -/
def retryWithBackoff {α : Type} (fn : ℕ → Except String α)
    (maxRetries baseDelay : ℕ) : Option (Except String α) × ℕ × List ℕ :=
  retryGo fn maxRetries baseDelay maxRetries 0

/-- Character-list matcher: does `pat` occur at the start of the second list? -/
def startsWithChars : List Char → List Char → Bool
  | [], _ => true
  | _ :: _, [] => false
  | p :: ps, c :: cs => p == c && startsWithChars ps cs

/-- Longest run of decimal digits at the head of the list (the `(\d+)` capture). -/
def leadingDigits : List Char → List Char
  | [] => []
  | c :: cs => if c.isDigit then c :: leadingDigits cs else []

/-- Left-to-right search for the literal `pat` followed by one or more digits,
returning the digit run: models `url.match(/pat(\d+)/)[1]`.  A literal match
not followed by a digit is skipped and the scan continues, as a regex engine
would. -/
def firstCapture (pat : List Char) : List Char → Option String
  | [] => none
  | c :: cs =>
    if startsWithChars pat (c :: cs) then
      let ds := leadingDigits ((c :: cs).drop pat.length)
      if ds.isEmpty then firstCapture pat cs else some (String.mk ds)
    else firstCapture pat cs

/-- Left-to-right search for `[?&]item=` followed by one or more digits:
models `url.match(/[?&]item=(\d+)/)[1]`. -/
def captureItemParam : List Char → Option String
  | [] => none
  | c :: cs =>
    if (c == '?' || c == '&') && startsWithChars "item=".data cs then
      let ds := leadingDigits (cs.drop 5)
      if ds.isEmpty then captureItemParam cs else some (String.mk ds)
    else captureItemParam cs

/-- `extractItemId(url)` from ebayAdapter.js: pattern 1 `/itm/(\d+)`,
pattern 2 `[?&]item=(\d+)`, pattern 3 `/p/(\d+)`, in order, else null. -/
def extractItemId (url : String) : Option String :=
  let cs := url.data
  match firstCapture "/itm/".data cs with
  | some m => some m
  | none =>
    match captureItemParam cs with
    | some m => some m
    | none => firstCapture "/p/".data cs

/-- JS `a || b` on strings: the empty string is falsy. -/
def jsOr (a b : String) : String := if a = "" then b else a

/-- What `puppeteerScraper.scrapeProductDetails` returns on success (the fields
`fetchWithScraping` consumes); `itemId` is `''` when the URL had no `/itm/`
segment. -/
structure ScrapedProduct where
  title : String
  price : ℚ
  stock : StockStatus
  images : List String
  itemId : String
  description : String
  variations : List String
deriving DecidableEq, Repr

/-- A normalized eBay item as returned by `fetchEbayItem` and its helpers. -/
structure EbayItemData where
  title : String
  price : ℚ
  stock : StockStatus
  images : List String
  itemId : String
  description : String
  variations : List String
deriving DecidableEq, Repr

/-- `fetchWithScraping(url)` from ebayAdapter.js (lines 121–145): the Puppeteer
outcome is the `scrape` input; a result with truthy title and positive price is
normalized, anything else throws. -/
def fetchWithScraping (url : String) (scrape : Except Unit ScrapedProduct) :
    Except Unit EbayItemData :=
  match scrape with
  | .error _ => .error ()
  | .ok d =>
    if d.title ≠ "" ∧ d.price > 0 then
      .ok { title := d.title
            price := d.price
            stock := d.stock
            images := d.images
            itemId := jsOr d.itemId (jsOr ((extractItemId url).getD "") "unknown")
            description := d.description
            variations := d.variations }
    else .error ()

/-- The item fields of one eBay Finding-API search result that
`fetchWithAPI` consumes; `price` is `parseFloat(… || 0)`, so a missing price
is 0. -/
structure ApiItem where
  title : Option String
  price : ℚ
  galleryURL : Option String
  itemId : Option String
deriving DecidableEq, Repr

/-- `fetchWithAPI(itemId)` from ebayAdapter.js (lines 60–115):
`appIdConfigured` models a present, non-placeholder `EBAY_APP_ID`; `resp` is
the (retried) HTTP outcome, `.ok none` a response without items.  Every failure
path — missing credentials, exhausted retries, no items, invalid data — returns
null. -/
def fetchWithAPI (appIdConfigured : Bool) (resp : Except Unit (Option ApiItem))
    (itemId : String) : Option EbayItemData :=
  if !appIdConfigured then none
  else
    match resp with
    | .error _ => none
    | .ok none => none
    | .ok (some item) =>
      let title := jsOr (item.title.getD "") "Unknown Product"
      let price := item.price
      if title = "" ∨ price = 0 then none
      else
        let g := item.galleryURL.getD ""
        some { title := title
               price := price
               stock := .in_stock
               images := if g = "" then [] else [g]
               itemId := jsOr (item.itemId.getD "") itemId
               description := ""
               variations := [] }

/-- `fetchEbayItem(url)` from ebayAdapter.js (lines 153–189).  The Boolean in
the result records whether the API fallback was invoked.  Scraping is attempted
first; the API fallback runs only when scraping threw and an item id was parsed
from the URL; the final result is validated to have a truthy title and a
non-zero price, else the function throws. -/
def fetchEbayItem (url : String) (scrape : Except Unit ScrapedProduct)
    (appIdConfigured : Bool) (apiResp : Except Unit (Option ApiItem)) :
    Except Unit EbayItemData × Bool :=
  let itemId := extractItemId url
  match fetchWithScraping url scrape with
  | .ok data =>
    if data.title = "" ∨ data.price = 0 then (.error (), false)
    else
      (.ok { data with itemId := jsOr data.itemId (jsOr (itemId.getD "") "unknown") },
       false)
  | .error _ =>
    match itemId with
    | none => (.error (), false)
    | some iid =>
      match fetchWithAPI appIdConfigured apiResp iid with
      | none => (.error (), true)
      | some data =>
        if data.title = "" ∨ data.price = 0 then (.error (), true)
        else
          (.ok { data with itemId := jsOr data.itemId (jsOr (itemId.getD "") "unknown") },
           true)

/-- JS truthiness on an optional string: a present empty string is falsy. -/
def truthy : Option String → Option String
  | some s => if s = "" then none else some s
  | none => none

/-- Does the four-character run `http` occur anywhere in the list? -/
def hasHttpChars : List Char → Bool
  | [] => false
  | c :: cs => startsWithChars "http".data (c :: cs) || hasHttpChars cs

/-- `s.includes('http')`. -/
def containsHttp (s : String) : Bool := hasHttpChars s.data

/-- The candidate-bearing fields of one parsed JSON-LD script, in the order
`extractSellerIdFromStorefront` probes them. -/
structure JsonLd where
  mainEntitySellerName : Option String
  sellerName : Option String
  sellerUsername : Option String
  authorName : Option String
  brandName : Option String
deriving DecidableEq, Repr

/-- One rendered storefront page, reduced to the raw candidates each extraction
strategy of `extractSellerIdFromStorefront` would find: JSON-LD scripts in
document order, the `twitter:creator` token (post regex-match and trim), the
trimmed text of each DOM marker selector, the inline-script regex captures in
order (post `replace`/`trim`), and the `/usr/`-or-`/str/` link usernames in
order (post decode and trim). -/
structure StorefrontPage where
  jsonLd : List JsonLd
  twitterCreator : Option String
  mbgIdSpan : Option String
  mbgIdLink : Option String
  mbgNw : Option String
  sellerInfoName : Option String
  strSellerInfo : Option String
  scriptCandidates : List String
  sellerLinkUsernames : List String
deriving DecidableEq, Repr

/-- Not the platform's own brand name. -/
def brandOk (s : String) : Bool := s ≠ "eBay UK" && s ≠ "eBay"

/-- The validation applied to meta-tag, DOM and link candidates: truthy, not the
brand, under 50 characters.  (No `http` test here — only the inline-script
strategy has one.) -/
def candidateOk (s : String) : Bool := s ≠ "" && brandOk s && s.length < 50

/-- Method 1: the first truthy field of one JSON-LD script, probed in source
order and returned with **no** validation. -/
def jsonLdCandidate (j : JsonLd) : Option String :=
  truthy j.mainEntitySellerName <|> truthy j.sellerName <|>
  truthy j.sellerUsername <|> truthy j.authorName <|> truthy j.brandName

/-- Method 1 over all JSON-LD scripts: the first script with any candidate
short-circuits the whole strategy chain. -/
def firstJsonLdCandidate : List JsonLd → Option String
  | [] => none
  | j :: js =>
    match jsonLdCandidate j with
    | some s => some s
    | none => firstJsonLdCandidate js

/-- Method 2: the `twitter:creator` token, kept only when it passes
`candidateOk`; a rejected token falls through (returns none). -/
def twitterCandidate (o : Option String) : Option String :=
  match truthy o with
  | some username => if candidateOk username then some username else none
  | none => none

/-- Method 3, one selector: the trimmed element text, kept only when it passes
`candidateOk`; a rejected text falls through to the next selector. -/
def domCandidate (o : Option String) : Option String :=
  match truthy o with
  | some text => if candidateOk text then some text else none
  | none => none

/-- Method 3: the five DOM marker selectors in the storefront order. -/
def domChain (p : StorefrontPage) : Option String :=
  domCandidate p.mbgIdSpan <|> domCandidate p.mbgIdLink <|> domCandidate p.mbgNw <|>
  domCandidate p.sellerInfoName <|> domCandidate p.strSellerInfo

/-- Method 4's validation: truthy, not the brand, under 50 characters, and not
containing the literal `http`. -/
def scriptCandidateOk (s : String) : Bool := candidateOk s && !containsHttp s

/-- Method 4: first inline-script regex capture passing `scriptCandidateOk`;
rejected captures fall through to the next pattern/script. -/
def firstScriptCandidate : List String → Option String
  | [] => none
  | c :: cs => if scriptCandidateOk c then some c else firstScriptCandidate cs

/-- Method 5: first seller-profile-link username passing `candidateOk`. -/
def firstLinkCandidate : List String → Option String
  | [] => none
  | u :: us => if candidateOk u then some u else firstLinkCandidate us

/-- The `page.evaluate` body of `extractSellerIdFromStorefront`
(puppeteerScraper.js lines 106–244): the five strategies in order. -/
def evaluateSellerId (p : StorefrontPage) : Option String :=
  firstJsonLdCandidate p.jsonLd <|> twitterCandidate p.twitterCreator <|>
  domChain p <|> firstScriptCandidate p.scriptCandidates <|>
  firstLinkCandidate p.sellerLinkUsernames

/-- `extractSellerIdFromStorefront` (lines 90–259): the evaluate result passes a
final truthy-and-not-the-brand filter (lines 246–250); a brand result yields
null, not a retry of later strategies. -/
def extractSellerIdFromStorefront (p : StorefrontPage) : Option String :=
  match evaluateSellerId p with
  | some sellerId => if sellerId ≠ "" && brandOk sellerId then some sellerId else none
  | none => none

/-- One anchor matching `a[href*="/itm/"]` on a store listing page, reduced to
the capture of `/itm/(\d+)` on its full URL and the best-effort card fields
(empty string where nothing was found). -/
structure ListingAnchor where
  itemId : String
  title : String
  price : ℚ
  image : String
deriving DecidableEq, Repr

/-- One entry of the array built by `scrapeStoreListings`' page.evaluate body. -/
structure ListingItem where
  itemId : String
  title : String
  price : ℚ
  images : List String
deriving DecidableEq, Repr

/-- The anchor loop of `scrapeStoreListings`' page.evaluate body
(puppeteerScraper.js lines 432–485): `seen` is the per-page `itemLinks` set,
so ids are deduplicated within one page only. -/
def evalListingGo : List ListingAnchor → List String → List ListingItem
  | [], _ => []
  | a :: as, seen =>
    if a.itemId ∈ seen then evalListingGo as seen
    else
      { itemId := a.itemId
        title := jsOr a.title ("Item " ++ a.itemId)
        price := a.price
        images := if a.image ≠ "" then [a.image] else [] } ::
      evalListingGo as (a.itemId :: seen)

/-- One page.evaluate call of `scrapeStoreListings`: fresh `itemLinks` set. -/
def evalListingPage (anchors : List ListingAnchor) : List ListingItem :=
  evalListingGo anchors []

/-- The pagination loop of `scrapeStoreListings` (lines 423–501), unrolled on
the number of pages still allowed: evaluate page `pageNum`, stop when it yields
zero items, else append and continue.  Returns the accumulated items and the
number of pages visited.  `pages n` is the rendered anchor list of page `n`;
navigation is assumed to succeed. -/
def scrapeGo (pages : ℕ → List ListingAnchor) : ℕ → ℕ → List ListingItem × ℕ
  | 0, _ => ([], 0)
  | fuel + 1, pageNum =>
    let pageItems := evalListingPage (pages pageNum)
    if pageItems = [] then ([], 1)
    else
      let r := scrapeGo pages fuel (pageNum + 1)
      (pageItems ++ r.1, r.2 + 1)

/-- `scrapeStoreListings(storeUrl, maxPages)` (default cap 5): pages 1 up to
`maxPages`; an empty accumulated list is returned as null. -/
def scrapeStoreListings (pages : ℕ → List ListingAnchor) (maxPages : ℕ := 5) :
    Option (List ListingItem) × ℕ :=
  let r := scrapeGo pages maxPages 1
  (if r.1 ≠ [] then some r.1 else none, r.2)

/-! ### Concrete fixtures used by the worked examples of the claims -/

/-- Settings with the default threshold 5 and every alert type enabled. -/
def defaultSettings : Settings := ⟨5, ⟨true, true, true, true, true⟩⟩

/-- A product stored at eBay price 100, in stock, with no supplier and no
competitor data. -/
def productAt100 : Product := ⟨"Widget", [], 100, .in_stock, none, 0, .in_stock, [], none⟩

/-- A cycle whose eBay snapshot carries the given price with unchanged stock,
and which yields nothing from the supplier (no supplier URL anyway) or the
competitor search. -/
def ebayPriceFetch (q : ℚ) : Fetches := ⟨.ok ⟨"Widget", q, .in_stock, []⟩, .error (), none⟩

/-- A product with a supplier URL and stored supplier state in_stock. -/
def productWithSupplier : Product :=
  { productAt100 with
      supplierUrl := some "https://supplier.example/x"
      supplierStockStatus := .in_stock }

/-- A product whose stored competitor summary and listings equal what the
competitor search returns: competitor price 90 against marketplace price 100. -/
def cx6Product : Product :=
  ⟨"Widget", [], 100, .in_stock, none, 0, .in_stock, ["l1"], some ⟨90, "rival"⟩⟩

/-- A cycle whose snapshots are all identical to the stored values of
`cx6Product`: same eBay price and stock, no supplier URL (supplier outcome
unused), and the same competitor listings and summary as stored. -/
def cx6Fetches : Fetches :=
  ⟨.ok ⟨"Widget", 100, .in_stock, []⟩, .error (), some ⟨["l1"], some ⟨90, "rival"⟩⟩⟩

def cx7Url : String := "https://www.ebay.co.uk/itm/123456789"

def cx7ApiItem : ApiItem := ⟨none, 17, none, none⟩

def cx8Candidate : String := "http://aaaaaaaaaaaaaaaaaaaaaaaaaaaaaaaaaaaaaaaaaaaaaaaa"

def cx8Page : StorefrontPage :=
  { jsonLd := [⟨some cx8Candidate, none, none, none, none⟩]
    twitterCreator := none
    mbgIdSpan := none
    mbgIdLink := none
    mbgNw := none
    sellerInfoName := none
    strSellerInfo := none
    scriptCandidates := []
    sellerLinkUsernames := ["goodseller"] }

/-- C9 counterexample page set: pages 1 and 2 each contain the same single
item anchor; page 3 is empty. -/
def cx9Pages : ℕ → List ListingAnchor :=
  fun n => if n ≤ 2 then [⟨"123", "Thing", 0, ""⟩] else []

/-! ### Helper predicates and lemmas about the alert lists of each step -/

/-- Is this one of the two price-change alert types? -/
def isPriceAlert (a : Alert) : Bool :=
  a.type == AlertType.price_increase || a.type == AlertType.price_decrease

/-- Is this one of the two stock-transition alert types? -/
def isStockAlert (a : Alert) : Bool :=
  a.type == AlertType.out_of_stock || a.type == AlertType.back_in_stock

/-- Is this a supplier_unavailable alert? -/
def isSupplierUnavailableAlert (a : Alert) : Bool :=
  a.type == AlertType.supplier_unavailable

theorem priceChangeAlerts_filter_price (th o n : ℚ) (fl : AlertTypes) :
    (priceChangeAlerts th o n fl).filter isPriceAlert = priceChangeAlerts th o n fl := by
  simp only [priceChangeAlerts]
  split_ifs <;> rfl

theorem priceChangeAlerts_filter_stock (th o n : ℚ) (fl : AlertTypes) :
    (priceChangeAlerts th o n fl).filter isStockAlert = [] := by
  simp only [priceChangeAlerts]
  split_ifs <;> rfl

theorem priceChangeAlerts_filter_supplier (th o n : ℚ) (fl : AlertTypes) :
    (priceChangeAlerts th o n fl).filter isSupplierUnavailableAlert = [] := by
  simp only [priceChangeAlerts]
  split_ifs <;> rfl

theorem stockChangeAlerts_filter_stock (tag : String) (sev : Severity)
    (o n : StockStatus) (fl : AlertTypes) :
    (stockChangeAlerts tag sev o n fl).filter isStockAlert =
      stockChangeAlerts tag sev o n fl := by
  simp only [stockChangeAlerts]
  split_ifs <;> rfl

theorem stockChangeAlerts_filter_price (tag : String) (sev : Severity)
    (o n : StockStatus) (fl : AlertTypes) :
    (stockChangeAlerts tag sev o n fl).filter isPriceAlert = [] := by
  simp only [stockChangeAlerts]
  split_ifs <;> rfl

theorem stockChangeAlerts_filter_supplier (tag : String) (sev : Severity)
    (o n : StockStatus) (fl : AlertTypes) :
    (stockChangeAlerts tag sev o n fl).filter isSupplierUnavailableAlert = [] := by
  simp only [stockChangeAlerts]
  split_ifs <;> rfl

theorem competitorStep_alerts_filter (fl : AlertTypes) (pct : ℚ) (p : Product)
    (o : Option Insights) (pred : Alert → Bool)
    (hpred : ∀ q1 q2 sev, pred ⟨.competitor_price, .num q1, .num q2, sev⟩ = false) :
    ((competitorStep fl pct p o).2.1).filter pred = [] := by
  cases o with
  | none => rfl
  | some insights =>
    obtain ⟨listings, summ⟩ := insights
    cases summ with
    | none => simp [competitorStep]
    | some cheapest =>
      simp only [competitorStep]
      split_ifs <;> simp_all [hpred]

/-- `resolvedThreshold` is the stored threshold whenever the latter is truthy. -/
theorem resolvedThreshold_pos (s : Settings) (h : 0 < s.priceChangeThreshold) :
    resolvedThreshold s = s.priceChangeThreshold := by
  unfold resolvedThreshold
  rw [if_neg (by exact ne_of_gt h)]

/-- The eBay branch never touches the supplier fields or the supplier URL. -/
theorem ebayStep_supplier_frame (th : ℚ) (fl : AlertTypes) (p : Product)
    (r : Except Unit Snapshot) :
    (ebayStep th fl p r).1.supplierUrl = p.supplierUrl ∧
    (ebayStep th fl p r).1.supplierPrice = p.supplierPrice ∧
    (ebayStep th fl p r).1.supplierStockStatus = p.supplierStockStatus := by
  cases r <;> exact ⟨rfl, rfl, rfl⟩

/-- The supplier branch never touches the eBay-facing fields. -/
theorem supplierStep_ebay_frame (th : ℚ) (fl : AlertTypes) (op : ℚ)
    (os : StockStatus) (p : Product) (r : Except Unit Snapshot) :
    (supplierStep th fl op os p r).1.ebayPrice = p.ebayPrice ∧
    (supplierStep th fl op os p r).1.stockStatus = p.stockStatus ∧
    (supplierStep th fl op os p r).1.title = p.title ∧
    (supplierStep th fl op os p r).1.images = p.images ∧
    (supplierStep th fl op os p r).1.supplierUrl = p.supplierUrl := by
  cases r <;> exact ⟨rfl, rfl, rfl, rfl, rfl⟩

/-- The competitor branch only touches the competitor fields. -/
theorem competitorStep_frame (fl : AlertTypes) (pct : ℚ) (p : Product)
    (o : Option Insights) :
    (competitorStep fl pct p o).1.ebayPrice = p.ebayPrice ∧
    (competitorStep fl pct p o).1.stockStatus = p.stockStatus ∧
    (competitorStep fl pct p o).1.title = p.title ∧
    (competitorStep fl pct p o).1.images = p.images ∧
    (competitorStep fl pct p o).1.supplierUrl = p.supplierUrl ∧
    (competitorStep fl pct p o).1.supplierPrice = p.supplierPrice ∧
    (competitorStep fl pct p o).1.supplierStockStatus = p.supplierStockStatus := by
  cases o with
  | none => exact ⟨rfl, rfl, rfl, rfl, rfl, rfl, rfl⟩
  | some insights =>
    obtain ⟨listings, summ⟩ := insights
    cases summ with
    | none => simp only [competitorStep]; split_ifs <;> simp
    | some cheapest => simp only [competitorStep]; split_ifs <;> simp

/-- Under the stated preconditions the price-change branch produces exactly the
alert the spec describes, and nothing otherwise. -/
theorem priceChangeAlerts_spec (th o n : ℚ) (fl : AlertTypes)
    (hold : 0 < o) (hne : n ≠ o) :
    priceChangeAlerts th o n fl =
      (if th ≤ |(n - o) / o * 100| ∧
          (if o < n then fl.priceIncrease = true else fl.priceDecrease = true) then
        [{ type := if o < n then .price_increase else .price_decrease,
           oldValue := .num o, newValue := .num n,
           severity := if 10 < |(n - o) / o * 100| then .high else .medium }]
      else []) := by
  simp only [priceChangeAlerts]
  rw [if_pos ⟨hne, hold⟩]
  by_cases h1 : th ≤ |(n - o) / o * 100| <;> by_cases h2 : o < n <;>
    simp [h1, h2, gt_iff_lt, ge_iff_le, abs_sub_comm]

/-- Under the stated preconditions the stock-change branch produces exactly the
alert the spec describes, and nothing otherwise. -/
theorem stockChangeAlerts_spec (tag : String) (sev : Severity)
    (o n : StockStatus) (fl : AlertTypes) (hne : n ≠ o) (hflag : fl.outOfStock = true) :
    stockChangeAlerts tag sev o n fl =
      (if n = .out_of_stock then
        [{ type := .out_of_stock, oldValue := .str tag, newValue := .stock o,
           severity := sev }]
      else if o = .out_of_stock then
        [{ type := .back_in_stock, oldValue := .stock o, newValue := .str tag,
           severity := .medium }]
      else []) := by
  simp only [stockChangeAlerts]
  rw [if_pos hne, if_pos hflag]

/-! ### C3: frequencyToCron -/

/-- C3: for every integer minutes input `x`, `frequencyToCron x` equals
`frequencyToCron 15` when `x < 15`; is the recurring every-`x`-minutes
expression when `15 ≤ x < 60`; the recurring every-`⌊x/60⌋`-hours expression
when `60 ≤ x < 1440`; and the once-daily-at-midnight expression when
`x ≥ 1440`.  In particular `frequencyToCron 90` is the every-1-hour form and
`frequencyToCron 1500` the daily-midnight form. -/
theorem C3_frequencyToCron (x : ℤ) :
    (x < 15 → frequencyToCron x = frequencyToCron 15) ∧
    (15 ≤ x → x < 60 → frequencyToCron x = "*/" ++ toString x ++ " * * * *") ∧
    (60 ≤ x → x < 1440 → frequencyToCron x = "0 */" ++ toString (x / 60) ++ " * * *") ∧
    (1440 ≤ x → frequencyToCron x = "0 0 * * *") ∧
    frequencyToCron 90 = "0 */1 * * *" ∧
    frequencyToCron 1500 = "0 0 * * *" := by
  refine ⟨?_, ?_, ?_, ?_, by rfl, by rfl⟩
  · intro h
    simp only [frequencyToCron]
    rw [max_eq_left (by omega : x ≤ (15:ℤ)), max_self]
  · intro h1 h2
    simp only [frequencyToCron]
    rw [max_eq_right h1, if_pos h2]
  · intro h1 h2
    simp only [frequencyToCron]
    rw [max_eq_right (by omega : (15:ℤ) ≤ x), if_neg (by omega), if_pos (by omega)]
  · intro h
    simp only [frequencyToCron]
    rw [max_eq_right (by omega : (15:ℤ) ≤ x), if_neg (by omega), if_neg (by omega)]

/-- Witness for C3 at the concrete input 90. -/
theorem C3_frequencyToCron_witness :
    frequencyToCron 90 = "0 */" ++ toString ((90:ℤ) / 60) ++ " * * *" :=
  (C3_frequencyToCron 90).2.2.1 (by norm_num) (by norm_num)

/-! ### C2: retryWithBackoff -/

/-- One-step unfolding of the retry loop. -/
theorem retryGo_succ {α : Type} (fn : ℕ → Except String α) (m d fuel attempt : ℕ) :
    retryGo fn m d (fuel + 1) attempt =
      match fn attempt with
      | .ok a => (some (.ok a), 1, [])
      | .error e =>
        if attempt = m - 1 then (some (.error e), 1, [])
        else
          let r := retryGo fn m d fuel (attempt + 1)
          (r.1, r.2.1 + 1, d * 2 ^ attempt :: r.2.2) := rfl

/-- The loop cell on a successful attempt. -/
theorem retryGo_ok {α : Type} (fn : ℕ → Except String α) (m d fuel attempt : ℕ)
    (a : α) (h : fn attempt = .ok a) :
    retryGo fn m d (fuel + 1) attempt = (some (.ok a), 1, []) := by
  rw [retryGo_succ, h]

/-- The loop cell on a failure of the last allowed attempt. -/
theorem retryGo_err_last {α : Type} (fn : ℕ → Except String α) (m d fuel attempt : ℕ)
    (e : String) (h : fn attempt = .error e) (hl : attempt = m - 1) :
    retryGo fn m d (fuel + 1) attempt = (some (.error e), 1, []) := by
  rw [retryGo_succ, h]
  simp [hl]

/-- The loop cell on a failure before the last allowed attempt: wait
`d * 2 ^ attempt`, then continue. -/
theorem retryGo_err_cont {α : Type} (fn : ℕ → Except String α) (m d fuel attempt : ℕ)
    (e : String) (h : fn attempt = .error e) (hl : ¬attempt = m - 1) :
    retryGo fn m d (fuel + 1) attempt =
      ((retryGo fn m d fuel (attempt + 1)).1,
       (retryGo fn m d fuel (attempt + 1)).2.1 + 1,
       d * 2 ^ attempt :: (retryGo fn m d fuel (attempt + 1)).2.2) := by
  rw [retryGo_succ, h]
  simp [hl]

/-- The loop never invokes the operation more often than it has iterations. -/
theorem retryGo_count_le {α : Type} (fn : ℕ → Except String α) (m d : ℕ) :
    ∀ fuel attempt, (retryGo fn m d fuel attempt).2.1 ≤ fuel := by
  intro fuel
  induction fuel with
  | zero => intro attempt; simp [retryGo]
  | succ n ih =>
    intro attempt
    cases h : fn attempt with
    | ok a => rw [retryGo_ok fn m d n attempt a h]; simp
    | error e =>
      by_cases hl : attempt = m - 1
      · rw [retryGo_err_last fn m d n attempt e h hl]; simp
      · rw [retryGo_err_cont fn m d n attempt e h hl]
        have := ih (attempt + 1)
        show (retryGo fn m d n (attempt + 1)).2.1 + 1 ≤ n + 1
        omega

/-- If attempt `k` is the first success within the allowed range, the loop
returns that result after `k + 1` invocations, having waited
`d * 2 ^ i` after each failed attempt `i < k`. -/
theorem retryGo_success {α : Type} (fn : ℕ → Except String α) (m d k : ℕ) (a : α)
    (hk : k < m) (hok : fn k = .ok a)
    (hfail : ∀ j, j < k → ∃ e, fn j = .error e) :
    ∀ fuel attempt, attempt + fuel = m → attempt ≤ k →
      retryGo fn m d fuel attempt =
        (some (.ok a), k + 1 - attempt,
         (List.range' attempt (k - attempt)).map (fun i => d * 2 ^ i)) := by
  intro fuel
  induction fuel with
  | zero => intro attempt h1 h2; omega
  | succ n ih =>
    intro attempt h1 h2
    rcases eq_or_lt_of_le h2 with heq | hlt
    · subst heq
      rw [retryGo_ok fn m d n attempt a hok]
      have h3 : attempt - attempt = 0 := by omega
      have h4 : attempt + 1 - attempt = 1 := by omega
      simp [h3, h4]
    · obtain ⟨e, he⟩ := hfail attempt hlt
      rw [retryGo_err_cont fn m d n attempt e he (by omega)]
      rw [ih (attempt + 1) (by omega) (by omega)]
      have h3 : k + 1 - (attempt + 1) + 1 = k + 1 - attempt := by omega
      have h4 : k - attempt = (k - (attempt + 1)) + 1 := by omega
      simp only [h4, List.range'_succ]
      simp [h3]
      omega

/-- If every attempt in the allowed range fails, the loop propagates the error
of the last attempt after exactly `m - attempt` invocations, having waited
after every attempt but the last. -/
theorem retryGo_allfail {α : Type} (fn : ℕ → Except String α) (m d : ℕ)
    (hfail : ∀ j, j < m → ∃ e, fn j = .error e) :
    ∀ fuel attempt, attempt + fuel = m → attempt < m →
      ∃ e, fn (m - 1) = .error e ∧
        retryGo fn m d fuel attempt =
          (some (.error e), m - attempt,
           (List.range' attempt (m - 1 - attempt)).map (fun i => d * 2 ^ i)) := by
  intro fuel
  induction fuel with
  | zero => intro attempt h1 h2; omega
  | succ n ih =>
    intro attempt h1 h2
    obtain ⟨e, he⟩ := hfail attempt h2
    by_cases hlast : attempt = m - 1
    · refine ⟨e, by rw [← hlast]; exact he, ?_⟩
      rw [retryGo_err_last fn m d n attempt e he hlast]
      have h3 : m - attempt = 1 := by omega
      have h4 : m - 1 - attempt = 0 := by omega
      simp [h3, h4]
    · obtain ⟨e', he', hr⟩ := ih (attempt + 1) (by omega) (by omega)
      refine ⟨e', he', ?_⟩
      rw [retryGo_err_cont fn m d n attempt e he hlast, hr]
      have h3 : m - (attempt + 1) + 1 = m - attempt := by omega
      have h4 : m - 1 - attempt = (m - 1 - (attempt + 1)) + 1 := by omega
      simp only [h4, List.range'_succ]
      simp [h3]

/-- C2: with `maxAttempts = m ≥ 1` and base delay `d`, `retryWithBackoff`
invokes the operation at most `m` times; if attempt `k` (0-indexed) is the
first success it returns that result after exactly `k + 1` invocations with a
wait of `d * 2 ^ i` after each failed attempt `i < k`; if all `m` attempts
fail it propagates the error of the last attempt after exactly `m`
invocations.  In particular, with `maxAttempts = 3`, `baseDelay = 1000` and an
operation failing twice then succeeding, the operation runs exactly 3 times
and the waits are 1000 then 2000 ms, 3000 ms in total. -/
theorem C2_retryWithBackoff {α : Type} (fn : ℕ → Except String α) (m d : ℕ)
    (hm : 1 ≤ m) :
    ((retryWithBackoff fn m d).2.1 ≤ m) ∧
    (∀ k a, k < m → fn k = .ok a → (∀ j, j < k → ∃ e, fn j = .error e) →
      retryWithBackoff fn m d =
        (some (.ok a), k + 1, (List.range k).map (fun i => d * 2 ^ i))) ∧
    ((∀ j, j < m → ∃ e, fn j = .error e) →
      ∃ e, fn (m - 1) = .error e ∧
        retryWithBackoff fn m d =
          (some (.error e), m, (List.range (m - 1)).map (fun i => d * 2 ^ i))) ∧
    retryWithBackoff (fun i => if i < 2 then .error "fail" else .ok 42) 3 1000 =
      (some (.ok 42), 3, [1000, 2000]) ∧
    (retryWithBackoff (fun i => if i < 2 then .error "fail" else .ok 42) 3 1000).2.2.sum
      = 1000 + 2000 := by
  refine ⟨retryGo_count_le fn m d m 0, ?_, ?_, by rfl, by rfl⟩
  · intro k a hk hok hfail
    have := retryGo_success fn m d k a hk hok hfail m 0 (by omega) (by omega)
    rw [retryWithBackoff, this]
    simp [List.range_eq_range']
  · intro hfail
    obtain ⟨e, he, hr⟩ := retryGo_allfail fn m d hfail m 0 (by omega) (by omega)
    refine ⟨e, he, ?_⟩
    rw [retryWithBackoff, hr]
    simp [List.range_eq_range']

/-- Witness for C2: the concrete fail-twice-then-succeed operation. -/
theorem C2_retryWithBackoff_witness :
    retryWithBackoff (fun i => if i < 2 then .error "fail" else .ok 42) 3 1000 =
      (some (.ok 42), 2 + 1, (List.range 2).map (fun i => 1000 * 2 ^ i)) :=
  (C2_retryWithBackoff (fun i => if i < 2 then .error "fail" else .ok 42) 3 1000
    (by norm_num)).2.1 2 42 (by norm_num) (by norm_num)
    (fun j hj => ⟨"fail", by
      have : j = 0 ∨ j = 1 := by omega
      rcases this with h | h <;> subst h <;> rfl⟩)

/-! ### Decomposition of checkProduct and step-level lemmas -/

/-- `checkProduct` is the three branches in sequence, alerts and history
concatenated in order. -/
theorem checkProduct_eq (s : Settings) (p : Product) (f : Fetches) :
    checkProduct s p f =
      (let r1 := ebayStep (resolvedThreshold s) s.alertTypes p f.ebay
       let r2 :=
         if hasSupplierUrl p then
           supplierStep (resolvedThreshold s) s.alertTypes p.supplierPrice
             p.supplierStockStatus r1.1 f.supplier
         else (r1.1, [], [])
       let r3 := competitorStep s.alertTypes 3 r2.1 f.competitor
       { product := r3.1,
         alerts := r1.2.1 ++ r2.2.1 ++ r3.2.1,
         history := r1.2.2 ++ r2.2.2 ++ r3.2.2 }) := rfl

theorem ebayStep_supplierUrl (th : ℚ) (fl : AlertTypes) (p : Product)
    (r : Except Unit Snapshot) : (ebayStep th fl p r).1.supplierUrl = p.supplierUrl := by
  cases r <;> rfl

theorem ebayStep_supplierPrice (th : ℚ) (fl : AlertTypes) (p : Product)
    (r : Except Unit Snapshot) : (ebayStep th fl p r).1.supplierPrice = p.supplierPrice := by
  cases r <;> rfl

theorem ebayStep_supplierStockStatus (th : ℚ) (fl : AlertTypes) (p : Product)
    (r : Except Unit Snapshot) :
    (ebayStep th fl p r).1.supplierStockStatus = p.supplierStockStatus := by
  cases r <;> rfl

theorem supplierStep_ebayPrice (th : ℚ) (fl : AlertTypes) (op : ℚ) (os : StockStatus)
    (p : Product) (r : Except Unit Snapshot) :
    (supplierStep th fl op os p r).1.ebayPrice = p.ebayPrice := by
  cases r <;> rfl

theorem supplierStep_stockStatus (th : ℚ) (fl : AlertTypes) (op : ℚ) (os : StockStatus)
    (p : Product) (r : Except Unit Snapshot) :
    (supplierStep th fl op os p r).1.stockStatus = p.stockStatus := by
  cases r <;> rfl

theorem supplierStep_title (th : ℚ) (fl : AlertTypes) (op : ℚ) (os : StockStatus)
    (p : Product) (r : Except Unit Snapshot) :
    (supplierStep th fl op os p r).1.title = p.title := by
  cases r <;> rfl

theorem supplierStep_images (th : ℚ) (fl : AlertTypes) (op : ℚ) (os : StockStatus)
    (p : Product) (r : Except Unit Snapshot) :
    (supplierStep th fl op os p r).1.images = p.images := by
  cases r <;> rfl

theorem supplierStep_supplierUrl (th : ℚ) (fl : AlertTypes) (op : ℚ) (os : StockStatus)
    (p : Product) (r : Except Unit Snapshot) :
    (supplierStep th fl op os p r).1.supplierUrl = p.supplierUrl := by
  cases r <;> rfl

theorem competitorStep_ebayPrice (fl : AlertTypes) (pct : ℚ) (p : Product)
    (o : Option Insights) : (competitorStep fl pct p o).1.ebayPrice = p.ebayPrice :=
  (competitorStep_frame fl pct p o).1

theorem competitorStep_stockStatus (fl : AlertTypes) (pct : ℚ) (p : Product)
    (o : Option Insights) : (competitorStep fl pct p o).1.stockStatus = p.stockStatus :=
  (competitorStep_frame fl pct p o).2.1

theorem competitorStep_title (fl : AlertTypes) (pct : ℚ) (p : Product)
    (o : Option Insights) : (competitorStep fl pct p o).1.title = p.title :=
  (competitorStep_frame fl pct p o).2.2.1

theorem competitorStep_images (fl : AlertTypes) (pct : ℚ) (p : Product)
    (o : Option Insights) : (competitorStep fl pct p o).1.images = p.images :=
  (competitorStep_frame fl pct p o).2.2.2.1

theorem competitorStep_supplierUrl (fl : AlertTypes) (pct : ℚ) (p : Product)
    (o : Option Insights) : (competitorStep fl pct p o).1.supplierUrl = p.supplierUrl :=
  (competitorStep_frame fl pct p o).2.2.2.2.1

theorem competitorStep_supplierStockStatus (fl : AlertTypes) (pct : ℚ) (p : Product)
    (o : Option Insights) :
    (competitorStep fl pct p o).1.supplierStockStatus = p.supplierStockStatus :=
  (competitorStep_frame fl pct p o).2.2.2.2.2.2

theorem ebayStep_filter_supplierAlert (th : ℚ) (fl : AlertTypes) (p : Product)
    (r : Except Unit Snapshot) :
    ((ebayStep th fl p r).2.1).filter isSupplierUnavailableAlert = [] := by
  cases r with
  | error e => rfl
  | ok d =>
    simp [ebayStep, List.filter_append, priceChangeAlerts_filter_supplier,
      stockChangeAlerts_filter_supplier]

theorem supplierStep_filter_supplierAlert (th : ℚ) (fl : AlertTypes) (op : ℚ)
    (os : StockStatus) (p : Product) (r : Except Unit Snapshot) :
    ((supplierStep th fl op os p r).2.1).filter isSupplierUnavailableAlert =
      (match r with
       | .ok _ => []
       | .error _ =>
         if fl.supplierUnavailable = true ∧ os ≠ .unknown then
           [{ type := .supplier_unavailable, oldValue := .str "available",
              newValue := .str "unavailable", severity := .high }]
         else []) := by
  cases r with
  | ok d =>
    simp [supplierStep, List.filter_append, priceChangeAlerts_filter_supplier,
      stockChangeAlerts_filter_supplier]
  | error e =>
    simp only [supplierStep]
    split_ifs <;> rfl

theorem supplierStep_history_filter_ebay (th : ℚ) (fl : AlertTypes) (op : ℚ)
    (os : StockStatus) (p : Product) (r : Except Unit Snapshot) :
    ((supplierStep th fl op os p r).2.2).filter (fun h => h.source == Source.ebay) = [] := by
  cases r <;> rfl

theorem competitorStep_history_filter_ebay (fl : AlertTypes) (pct : ℚ) (p : Product)
    (o : Option Insights) :
    ((competitorStep fl pct p o).2.2).filter (fun h => h.source == Source.ebay) = [] := by
  rcases o with _ | ⟨ls, summ⟩
  · rfl
  · rcases summ with _ | ch
    · simp [competitorStep]
    · simp only [competitorStep]
      split_ifs <;> rfl

/-! ### C1: price-change alerts -/

/-- C1: for each source (marketplace part, then supplier part) with a stored
old price > 0 and a fetched new price different from it, `checkProduct`
computes the percent change `(new − old) / old · 100` and emits exactly one
price alert — `price_increase` when new > old, `price_decrease` when
new < old — if and only if `|percent change|` is at least the tenant threshold
and the corresponding alert type is enabled; severity is `high` iff
`|percent change| > 10`, else `medium`.  With the default threshold 5 and old
price 100: new 104 emits nothing, new 106 exactly one medium
`price_increase`, new 116 exactly one high `price_increase`. -/
theorem C1_price_change (s : Settings) (hth : 0 < s.priceChangeThreshold) :
    (∀ (p : Product) (f : Fetches) (d : Snapshot),
      f.ebay = .ok d → hasSupplierUrl p = false → f.competitor = none →
      0 < p.ebayPrice → d.price ≠ p.ebayPrice →
      (checkProduct s p f).alerts.filter isPriceAlert =
        (if s.priceChangeThreshold ≤ |(d.price - p.ebayPrice) / p.ebayPrice * 100| ∧
            (if p.ebayPrice < d.price then s.alertTypes.priceIncrease = true
             else s.alertTypes.priceDecrease = true) then
          [{ type := if p.ebayPrice < d.price then .price_increase else .price_decrease,
             oldValue := .num p.ebayPrice, newValue := .num d.price,
             severity := if 10 < |(d.price - p.ebayPrice) / p.ebayPrice * 100| then
               .high else .medium }]
        else [])) ∧
    (∀ (p : Product) (f : Fetches) (d : Snapshot),
      f.ebay = .error () → hasSupplierUrl p = true → f.supplier = .ok d →
      f.competitor = none →
      0 < p.supplierPrice → d.price ≠ p.supplierPrice →
      (checkProduct s p f).alerts.filter isPriceAlert =
        (if s.priceChangeThreshold ≤ |(d.price - p.supplierPrice) / p.supplierPrice * 100| ∧
            (if p.supplierPrice < d.price then s.alertTypes.priceIncrease = true
             else s.alertTypes.priceDecrease = true) then
          [{ type := if p.supplierPrice < d.price then .price_increase else .price_decrease,
             oldValue := .num p.supplierPrice, newValue := .num d.price,
             severity := if 10 < |(d.price - p.supplierPrice) / p.supplierPrice * 100| then
               .high else .medium }]
        else [])) ∧
    (checkProduct defaultSettings productAt100 (ebayPriceFetch 104)).alerts = [] ∧
    (checkProduct defaultSettings productAt100 (ebayPriceFetch 106)).alerts =
      [{ type := .price_increase, oldValue := .num 100, newValue := .num 106,
         severity := .medium }] ∧
    (checkProduct defaultSettings productAt100 (ebayPriceFetch 116)).alerts =
      [{ type := .price_increase, oldValue := .num 100, newValue := .num 116,
         severity := .high }] := by
  have hexamples : ∀ q : ℚ, (checkProduct defaultSettings productAt100 (ebayPriceFetch q)).alerts =
      priceChangeAlerts 5 100 q defaultSettings.alertTypes := by
    intro q
    rw [checkProduct_eq]
    norm_num [ebayStep, competitorStep, defaultSettings, productAt100, ebayPriceFetch,
      hasSupplierUrl, stockChangeAlerts, resolvedThreshold]
  refine ⟨?_, ?_, ?_, ?_, ?_⟩
  case refine_3 =>
    rw [hexamples]
    norm_num [priceChangeAlerts, defaultSettings]
  case refine_4 =>
    rw [hexamples]
    norm_num [priceChangeAlerts, defaultSettings]
  case refine_5 =>
    rw [hexamples]
    norm_num [priceChangeAlerts, defaultSettings]
  · intro p f d hfe hsup hcomp hold hne
    rw [checkProduct_eq]
    simp only [hfe, hsup, hcomp, ebayStep, competitorStep, Bool.false_eq_true,
      if_false, List.append_nil, List.filter_append,
      priceChangeAlerts_filter_price, stockChangeAlerts_filter_price]
    rw [resolvedThreshold_pos s hth, priceChangeAlerts_spec _ _ _ _ hold hne]
  · intro p f d hfe hsup hok hcomp hold hne
    rw [checkProduct_eq]
    simp only [hfe, hsup, hok, hcomp, ebayStep, supplierStep, competitorStep,
      if_true, List.append_nil, List.nil_append, List.filter_append,
      priceChangeAlerts_filter_price, stockChangeAlerts_filter_price]
    rw [resolvedThreshold_pos s hth, priceChangeAlerts_spec _ _ _ _ hold hne]

/-- Witness for C1: default settings, stored price 100, fetched price 116. -/
theorem C1_price_change_witness :
    (checkProduct defaultSettings productAt100 (ebayPriceFetch 116)).alerts.filter
      isPriceAlert =
      (if defaultSettings.priceChangeThreshold ≤
          |((116:ℚ) - 100) / 100 * 100| ∧
          (if (100:ℚ) < 116 then defaultSettings.alertTypes.priceIncrease = true
           else defaultSettings.alertTypes.priceDecrease = true) then
        [{ type := if (100:ℚ) < 116 then .price_increase else .price_decrease,
           oldValue := .num 100, newValue := .num 116,
           severity := if 10 < |((116:ℚ) - 100) / 100 * 100| then .high else .medium }]
      else []) :=
  (C1_price_change defaultSettings (by norm_num [defaultSettings])).1 productAt100
    (ebayPriceFetch 116) ⟨"Widget", 116, .in_stock, []⟩ rfl rfl rfl
    (by norm_num [productAt100]) (by norm_num [productAt100])

/-! ### C4: stock-transition alerts -/

/-- C4: with the outOfStock alert type enabled, a stock-state change on a
source (marketplace part, then supplier part) emits exactly one `out_of_stock`
alert when the new state is out_of_stock — severity `high` for the
marketplace, `critical` for the supplier — exactly one medium `back_in_stock`
alert when the old state was out_of_stock and the new one is not, and no stock
alert for any other stock-state change. -/
theorem C4_stock_alerts (s : Settings) (hoos : s.alertTypes.outOfStock = true) :
    (∀ (p : Product) (f : Fetches) (d : Snapshot),
      f.ebay = .ok d → hasSupplierUrl p = false → f.competitor = none →
      d.stock ≠ p.stockStatus →
      (checkProduct s p f).alerts.filter isStockAlert =
        (if d.stock = .out_of_stock then
          [{ type := .out_of_stock, oldValue := .str "ebay",
             newValue := .stock p.stockStatus, severity := .high }]
        else if p.stockStatus = .out_of_stock then
          [{ type := .back_in_stock, oldValue := .stock p.stockStatus,
             newValue := .str "ebay", severity := .medium }]
        else [])) ∧
    (∀ (p : Product) (f : Fetches) (d : Snapshot),
      f.ebay = .error () → hasSupplierUrl p = true → f.supplier = .ok d →
      f.competitor = none → d.stock ≠ p.supplierStockStatus →
      (checkProduct s p f).alerts.filter isStockAlert =
        (if d.stock = .out_of_stock then
          [{ type := .out_of_stock, oldValue := .str "supplier",
             newValue := .stock p.supplierStockStatus, severity := .critical }]
        else if p.supplierStockStatus = .out_of_stock then
          [{ type := .back_in_stock, oldValue := .stock p.supplierStockStatus,
             newValue := .str "supplier", severity := .medium }]
        else [])) := by
  constructor
  · intro p f d hfe hsup hcomp hne
    rw [checkProduct_eq]
    simp only [hfe, hsup, hcomp, ebayStep, competitorStep, Bool.false_eq_true,
      if_false, List.append_nil, List.filter_append, List.nil_append,
      priceChangeAlerts_filter_stock, stockChangeAlerts_filter_stock]
    rw [stockChangeAlerts_spec _ _ _ _ _ hne hoos]
  · intro p f d hfe hsup hok hcomp hne
    rw [checkProduct_eq]
    simp only [hfe, hsup, hok, hcomp, ebayStep, supplierStep, competitorStep,
      if_true, List.append_nil, List.nil_append, List.filter_append,
      priceChangeAlerts_filter_stock, stockChangeAlerts_filter_stock]
    rw [stockChangeAlerts_spec _ _ _ _ _ hne hoos]

/-- Witness for C4: in_stock → out_of_stock on the marketplace source gives one
high out_of_stock alert. -/
theorem C4_stock_alerts_witness :
    (checkProduct defaultSettings productAt100
      ⟨.ok ⟨"Widget", 100, .out_of_stock, []⟩, .error (), none⟩).alerts.filter
        isStockAlert =
      (if (⟨"Widget", 100, .out_of_stock, []⟩ : Snapshot).stock = .out_of_stock then
        [{ type := .out_of_stock, oldValue := .str "ebay",
           newValue := .stock productAt100.stockStatus, severity := .high }]
      else if productAt100.stockStatus = .out_of_stock then
        [{ type := .back_in_stock, oldValue := .stock productAt100.stockStatus,
           newValue := .str "ebay", severity := .medium }]
      else []) :=
  (C4_stock_alerts defaultSettings rfl).1 productAt100
    ⟨.ok ⟨"Widget", 100, .out_of_stock, []⟩, .error (), none⟩
    ⟨"Widget", 100, .out_of_stock, []⟩ rfl rfl rfl (by decide)

/-! ### C5: supplier_unavailable alerts -/

theorem competitorStep_filter_supplierAlert (fl : AlertTypes) (pct : ℚ)
    (p : Product) (o : Option Insights) :
    ((competitorStep fl pct p o).2.1).filter isSupplierUnavailableAlert = [] :=
  competitorStep_alerts_filter fl pct p o _ (fun _ _ _ => rfl)

/-- Full characterization of the supplier_unavailable alerts of one run: they
arise only from the supplier branch, only on a thrown supplier fetch. -/
theorem checkProduct_supplierAlert_spec (s : Settings) (p : Product) (f : Fetches) :
    (checkProduct s p f).alerts.filter isSupplierUnavailableAlert =
      (if hasSupplierUrl p then
        match f.supplier with
        | .ok _ => []
        | .error _ =>
          if s.alertTypes.supplierUnavailable = true ∧ p.supplierStockStatus ≠ .unknown then
            [{ type := .supplier_unavailable, oldValue := .str "available",
               newValue := .str "unavailable", severity := .high }]
          else []
      else []) := by
  rw [checkProduct_eq]
  simp only [List.filter_append, ebayStep_filter_supplierAlert,
    competitorStep_filter_supplierAlert, List.nil_append, List.append_nil]
  by_cases hsu : hasSupplierUrl p
  · simp only [hsu, if_true, supplierStep_filter_supplierAlert]
  · simp [hsu]

/-- C5: when the supplier fetch throws for a product with a supplier URL,
`checkProduct` emits exactly one high `supplier_unavailable` alert iff the
stored supplier state was not already unknown and the alert type is enabled;
in every such failure it sets the supplier stock state to unknown, so a second
consecutive failing run emits no further supplier_unavailable alert. -/
theorem C5_supplier_unavailable (s : Settings) (p : Product) (f : Fetches)
    (hurl : hasSupplierUrl p = true) (hfail : f.supplier = .error ()) :
    ((checkProduct s p f).alerts.filter isSupplierUnavailableAlert =
      (if s.alertTypes.supplierUnavailable = true ∧ p.supplierStockStatus ≠ .unknown then
        [{ type := .supplier_unavailable, oldValue := .str "available",
           newValue := .str "unavailable", severity := .high }]
      else [])) ∧
    (checkProduct s p f).product.supplierStockStatus = .unknown ∧
    (∀ (s2 : Settings) (f2 : Fetches), f2.supplier = .error () →
      (checkProduct s2 (checkProduct s p f).product f2).alerts.filter
        isSupplierUnavailableAlert = []) := by
  have hstat : (checkProduct s p f).product.supplierStockStatus = .unknown := by
    rw [checkProduct_eq]
    simp [hurl, hfail, competitorStep_supplierStockStatus, supplierStep]
  refine ⟨?_, hstat, ?_⟩
  · rw [checkProduct_supplierAlert_spec, hurl, hfail]
    simp
  · intro s2 f2 hf2
    rw [checkProduct_supplierAlert_spec, hf2, hstat]
    simp

/-- Witness for C5 at a concrete product with supplier URL and stored
in_stock supplier state. -/
theorem C5_supplier_unavailable_witness :
    ((checkProduct defaultSettings productWithSupplier
        ⟨.error (), .error (), none⟩).alerts.filter isSupplierUnavailableAlert =
      (if defaultSettings.alertTypes.supplierUnavailable = true ∧
          productWithSupplier.supplierStockStatus ≠ .unknown then
        [{ type := .supplier_unavailable, oldValue := .str "available",
           newValue := .str "unavailable", severity := .high }]
      else [])) ∧
    (checkProduct defaultSettings productWithSupplier
      ⟨.error (), .error (), none⟩).product.supplierStockStatus = .unknown :=
  have h := C5_supplier_unavailable defaultSettings productWithSupplier
    ⟨.error (), .error (), none⟩ (by decide) rfl
  ⟨h.1, h.2.1⟩

/-! ### C6: idempotence of a cycle against an unchanged upstream -/

theorem priceChangeAlerts_self (th o : ℚ) (fl : AlertTypes) :
    priceChangeAlerts th o o fl = [] := by
  simp [priceChangeAlerts]

theorem stockChangeAlerts_self (tag : String) (sev : Severity) (o : StockStatus)
    (fl : AlertTypes) : stockChangeAlerts tag sev o o fl = [] := by
  simp [stockChangeAlerts]

theorem hasSupplierUrl_congr (p q : Product) (h : p.supplierUrl = q.supplierUrl) :
    hasSupplierUrl p = hasSupplierUrl q := by
  unfold hasSupplierUrl
  rw [h]

/-- One run against marketplace/supplier snapshots identical to the stored
values and no competitor insights: no alerts, one history entry per fetched
source, and all compared product fields unchanged. -/
theorem checkProduct_unchanged_core (s : Settings) (p : Product) (f : Fetches)
    (d : Snapshot) (hfe : f.ebay = .ok d) (hprice : d.price = p.ebayPrice)
    (hstock : d.stock = p.stockStatus)
    (hsupply : hasSupplierUrl p = true →
      ∃ d2, f.supplier = .ok d2 ∧ d2.price = p.supplierPrice ∧
        d2.stock = p.supplierStockStatus)
    (hcomp : f.competitor = none) :
    (checkProduct s p f).alerts = [] ∧
    (checkProduct s p f).history =
      [{ source := .ebay, price := d.price, stock := d.stock }] ++
      (if hasSupplierUrl p then
        match f.supplier with
        | .ok d2 => [{ source := Source.supplier, price := d2.price, stock := d2.stock }]
        | .error _ => []
      else []) ∧
    (checkProduct s p f).product.ebayPrice = p.ebayPrice ∧
    (checkProduct s p f).product.stockStatus = p.stockStatus ∧
    (checkProduct s p f).product.supplierUrl = p.supplierUrl ∧
    (checkProduct s p f).product.supplierPrice = p.supplierPrice ∧
    (checkProduct s p f).product.supplierStockStatus = p.supplierStockStatus := by
  by_cases hsu : hasSupplierUrl p
  · obtain ⟨d2, hok, hp2, hs2⟩ := hsupply hsu
    refine ⟨?_, ?_, ?_, ?_, ?_, ?_, ?_⟩ <;>
      simp [checkProduct_eq, hfe, hcomp, hok, hsu, ebayStep, supplierStep, competitorStep,
        priceChangeAlerts, stockChangeAlerts, hprice, hstock, hp2, hs2]
  · refine ⟨?_, ?_, ?_, ?_, ?_, ?_, ?_⟩ <;>
      simp [checkProduct_eq, hfe, hcomp, hsu, ebayStep, competitorStep,
        priceChangeAlerts, stockChangeAlerts, hprice, hstock]

/-- C6 counterexample: running checkProduct twice on `cx6Product` with every
upstream snapshot identical to the already-stored values does NOT produce zero
alerts on the second run — the competitor_price alert is re-emitted every run
because the competitor branch never compares against the stored summary. -/
theorem C6_counterexample :
    (checkProduct defaultSettings
      (checkProduct defaultSettings cx6Product cx6Fetches).product cx6Fetches).alerts =
      [{ type := .competitor_price, oldValue := .num 100, newValue := .num 90,
         severity := .medium }] ∧
    (checkProduct defaultSettings
      (checkProduct defaultSettings cx6Product cx6Fetches).product cx6Fetches).alerts ≠
      [] := by
  have h1 : (checkProduct defaultSettings cx6Product cx6Fetches).product = cx6Product := by
    rw [checkProduct_eq]
    norm_num [ebayStep, competitorStep, defaultSettings, cx6Product, cx6Fetches,
      hasSupplierUrl, priceChangeAlerts, stockChangeAlerts, resolvedThreshold]
  rw [h1]
  constructor
  · rw [checkProduct_eq]
    norm_num [ebayStep, competitorStep, defaultSettings, cx6Product, cx6Fetches,
      hasSupplierUrl, priceChangeAlerts, stockChangeAlerts, resolvedThreshold]
  · rw [checkProduct_eq]
    norm_num [ebayStep, competitorStep, defaultSettings, cx6Product, cx6Fetches,
      hasSupplierUrl, priceChangeAlerts, stockChangeAlerts, resolvedThreshold]

/-- C6 (amended): running checkProduct twice on the same product when the
marketplace and supplier snapshots are identical to the already-stored values
and the competitor search returns no insights produces zero alerts on both
runs; each run appends exactly one PriceHistoryEntry per source fetched
successfully, and the second run's history equals the first's.  (The original
claim fails for the competitor source: a stored-and-identically-refetched
cheaper competitor summary re-emits a competitor_price alert every run, see
the counterexample.) -/
theorem C6_idempotence_amended (s : Settings) (p : Product) (f : Fetches) (d : Snapshot)
    (hfe : f.ebay = .ok d) (hprice : d.price = p.ebayPrice) (hstock : d.stock = p.stockStatus)
    (hsupply : hasSupplierUrl p = true →
      ∃ d2, f.supplier = .ok d2 ∧ d2.price = p.supplierPrice ∧
        d2.stock = p.supplierStockStatus)
    (hcomp : f.competitor = none) :
    (checkProduct s p f).alerts = [] ∧
    (checkProduct s (checkProduct s p f).product f).alerts = [] ∧
    (checkProduct s p f).history =
      [{ source := .ebay, price := d.price, stock := d.stock }] ++
      (if hasSupplierUrl p then
        match f.supplier with
        | .ok d2 => [{ source := Source.supplier, price := d2.price, stock := d2.stock }]
        | .error _ => []
      else []) ∧
    (checkProduct s (checkProduct s p f).product f).history =
      (checkProduct s p f).history := by
  obtain ⟨ha1, hh1, hep, hst, hsu, hsp, hss⟩ :=
    checkProduct_unchanged_core s p f d hfe hprice hstock hsupply hcomp
  have hurl : hasSupplierUrl (checkProduct s p f).product = hasSupplierUrl p :=
    hasSupplierUrl_congr _ _ hsu
  obtain ⟨ha2, hh2, _, _, _, _, _⟩ :=
    checkProduct_unchanged_core s (checkProduct s p f).product f d hfe
      (by rw [hep, hprice]) (by rw [hst, hstock])
      (fun h => by
        obtain ⟨d2, hok, hp2, hs2⟩ := hsupply (by rw [← hurl]; exact h)
        exact ⟨d2, hok, by rw [hsp, hp2], by rw [hss, hs2]⟩)
      hcomp
  refine ⟨ha1, ha2, hh1, ?_⟩
  rw [hh2, hh1, hurl]

/-- Witness for the amended C6: unchanged snapshot at price 100. -/
theorem C6_idempotence_amended_witness :
    (checkProduct defaultSettings productAt100 (ebayPriceFetch 100)).alerts = [] ∧
    (checkProduct defaultSettings
      (checkProduct defaultSettings productAt100 (ebayPriceFetch 100)).product
      (ebayPriceFetch 100)).alerts = [] :=
  have h := C6_idempotence_amended defaultSettings productAt100 (ebayPriceFetch 100)
    ⟨"Widget", 100, .in_stock, []⟩ rfl (by norm_num [productAt100, ebayPriceFetch]) rfl
    (fun hcontra => absurd hcontra (by decide)) rfl
  ⟨h.1, h.2.1⟩

/-! ### C10: frame of a thrown marketplace fetch -/

/-- C10: if the marketplace fetch throws, the product's ebayPrice, stockStatus,
title and images are unchanged at the end of checkProduct, no ebay history
entry is appended, and the run equals exactly the supplier and competitor
steps executed on the unchanged product — so no marketplace alert exists and
both remaining steps still run. -/
theorem C10_ebay_failure_frame (s : Settings) (p : Product) (f : Fetches)
    (hfe : f.ebay = .error ()) :
    (checkProduct s p f).product.ebayPrice = p.ebayPrice ∧
    (checkProduct s p f).product.stockStatus = p.stockStatus ∧
    (checkProduct s p f).product.title = p.title ∧
    (checkProduct s p f).product.images = p.images ∧
    ((checkProduct s p f).history.filter (fun h => h.source == Source.ebay) = []) ∧
    checkProduct s p f =
      (let r2 :=
         if hasSupplierUrl p then
           supplierStep (resolvedThreshold s) s.alertTypes p.supplierPrice
             p.supplierStockStatus p f.supplier
         else (p, [], [])
       let r3 := competitorStep s.alertTypes 3 r2.1 f.competitor
       { product := r3.1,
         alerts := r2.2.1 ++ r3.2.1,
         history := r2.2.2 ++ r3.2.2 }) := by
  have hmain : checkProduct s p f =
      (let r2 :=
         if hasSupplierUrl p then
           supplierStep (resolvedThreshold s) s.alertTypes p.supplierPrice
             p.supplierStockStatus p f.supplier
         else (p, [], [])
       let r3 := competitorStep s.alertTypes 3 r2.1 f.competitor
       { product := r3.1,
         alerts := r2.2.1 ++ r3.2.1,
         history := r2.2.2 ++ r3.2.2 }) := by
    rw [checkProduct_eq, hfe]
    exact rfl
  refine ⟨?_, ?_, ?_, ?_, ?_, hmain⟩ <;> rw [hmain] <;>
    by_cases hsu : hasSupplierUrl p <;>
    simp [hsu, competitorStep_ebayPrice, competitorStep_stockStatus, competitorStep_title,
      competitorStep_images, supplierStep_ebayPrice, supplierStep_stockStatus,
      supplierStep_title, supplierStep_images, List.filter_append,
      supplierStep_history_filter_ebay, competitorStep_history_filter_ebay]

/-- Witness for C10: failing marketplace fetch on the concrete product. -/
theorem C10_ebay_failure_frame_witness :
    (checkProduct defaultSettings productAt100
      ⟨.error (), .error (), none⟩).product.ebayPrice = productAt100.ebayPrice ∧
    (checkProduct defaultSettings productAt100
      ⟨.error (), .error (), none⟩).history.filter
        (fun h => h.source == Source.ebay) = [] :=
  have h := C10_ebay_failure_frame defaultSettings productAt100
    ⟨.error (), .error (), none⟩ rfl
  ⟨h.1, h.2.2.2.2.1⟩

/-! ### C7: fetchEbayItem -/

/-- Inversion: a successful scraping path comes from a scrape result with
truthy title and positive price, all fields carried over. -/
theorem fetchWithScraping_ok_inv (url : String) (scrape : Except Unit ScrapedProduct)
    (d : EbayItemData) (h : fetchWithScraping url scrape = .ok d) :
    ∃ sd, scrape = .ok sd ∧ sd.title ≠ "" ∧ sd.price > 0 ∧
      d.title = sd.title ∧ d.price = sd.price ∧ d.stock = sd.stock ∧
      d.images = sd.images := by
  cases scrape with
  | error e => simp [fetchWithScraping] at h
  | ok sd =>
    simp only [fetchWithScraping] at h
    by_cases hc : sd.title ≠ "" ∧ sd.price > 0
    · rw [if_pos hc] at h
      injection h with h2
      exact ⟨sd, rfl, hc.1, hc.2, by rw [← h2], by rw [← h2], by rw [← h2], by rw [← h2]⟩
    · rw [if_neg hc] at h
      exact absurd h (by simp)

/-- Inversion: a non-null API result needs configured credentials and an item
in the response; title/price/images come from that item, with the title
defaulted to `Unknown Product` when absent. -/
theorem fetchWithAPI_some_inv (appId : Bool) (resp : Except Unit (Option ApiItem))
    (iid : String) (d : EbayItemData) (h : fetchWithAPI appId resp iid = some d) :
    appId = true ∧ ∃ item, resp = .ok (some item) ∧
      d.title = jsOr (item.title.getD "") "Unknown Product" ∧
      d.price = item.price ∧ d.stock = .in_stock ∧
      d.images = (if item.galleryURL.getD "" = "" then []
        else [item.galleryURL.getD ""]) := by
  cases appId with
  | false => simp [fetchWithAPI] at h
  | true =>
    refine ⟨rfl, ?_⟩
    cases resp with
    | error e => simp [fetchWithAPI] at h
    | ok o =>
      cases o with
      | none => simp [fetchWithAPI] at h
      | some item =>
        simp only [fetchWithAPI, Bool.not_true, Bool.false_eq_true, if_false] at h
        by_cases hc : jsOr (item.title.getD "") "Unknown Product" = "" ∨ item.price = 0
        · rw [if_pos hc] at h
          exact absurd h (by simp)
        · rw [if_neg hc] at h
          injection h with h2
          exact ⟨item, rfl, by rw [← h2], by rw [← h2], by rw [← h2], by rw [← h2]⟩

/-- C7 (amended): `fetchEbayItem` attempts page extraction first and invokes
the API fallback only when extraction failed and an item id was parsed from
the URL by one of the three accepted shapes; it returns only data with
non-empty title and non-zero price, else throws; price and images always come
from the fetched source (images defaulting to the empty list, price never
fabricated) — but the title is the fetched one only on the scraping path,
while on the API path a missing item title is replaced by the literal
`Unknown Product` (and the itemId may default to `unknown`), which the
counterexample shows; so "every field taken from a fetched source" does not
hold as stated. -/
theorem C7_fetchEbayItem_amended (url : String) (scrape : Except Unit ScrapedProduct)
    (appId : Bool) (apiResp : Except Unit (Option ApiItem)) :
    ((fetchEbayItem url scrape appId apiResp).2 = true →
      fetchWithScraping url scrape = .error () ∧ (extractItemId url).isSome = true) ∧
    (∀ data, (fetchEbayItem url scrape appId apiResp).1 = .ok data →
      data.title ≠ "" ∧ data.price ≠ 0) ∧
    (∀ data, (fetchEbayItem url scrape appId apiResp).1 = .ok data →
      (∃ sd, scrape = .ok sd ∧ sd.title ≠ "" ∧ sd.price > 0 ∧
        data.title = sd.title ∧ data.price = sd.price ∧ data.images = sd.images) ∨
      (∃ item, apiResp = .ok (some item) ∧ appId = true ∧
        data.title = jsOr (item.title.getD "") "Unknown Product" ∧
        data.price = item.price ∧
        data.images = (if item.galleryURL.getD "" = "" then []
          else [item.galleryURL.getD ""]))) := by
  cases hscrape : fetchWithScraping url scrape with
  | ok d0 =>
    have hfe : fetchEbayItem url scrape appId apiResp =
        (if d0.title = "" ∨ d0.price = 0 then (.error (), false)
         else (.ok { d0 with itemId := jsOr d0.itemId (jsOr ((extractItemId url).getD "") "unknown") }, false)) := by
      simp [fetchEbayItem, hscrape]
    by_cases hc : d0.title = "" ∨ d0.price = 0
    · rw [if_pos hc] at hfe
      rw [hfe]
      refine ⟨by simp, by simp, by simp⟩
    · rw [if_neg hc] at hfe
      rw [hfe]
      push_neg at hc
      refine ⟨by simp, ?_, ?_⟩
      · intro data hdata
        injection hdata with h2
        constructor
        · rw [← h2]; exact hc.1
        · rw [← h2]; exact hc.2
      · intro data hdata
        injection hdata with h2
        obtain ⟨sd, hsd, ht, hp, e1, e2, e3, e4⟩ :=
          fetchWithScraping_ok_inv url scrape d0 hscrape
        exact Or.inl ⟨sd, hsd, ht, hp, by rw [← h2]; exact e1, by rw [← h2]; exact e2,
          by rw [← h2]; exact e4⟩
  | error e0 =>
    cases hid : extractItemId url with
    | none =>
      have hfe : fetchEbayItem url scrape appId apiResp = (.error (), false) := by
        simp [fetchEbayItem, hscrape, hid]
      rw [hfe]
      exact ⟨by simp, by simp, by simp⟩
    | some iid =>
      cases happi : fetchWithAPI appId apiResp iid with
      | none =>
        have hfe : fetchEbayItem url scrape appId apiResp = (.error (), true) := by
          simp [fetchEbayItem, hscrape, hid, happi]
        rw [hfe]
        cases e0
        exact ⟨fun _ => ⟨rfl, rfl⟩, by simp, by simp⟩
      | some d0 =>
        have hfe : fetchEbayItem url scrape appId apiResp =
            (if d0.title = "" ∨ d0.price = 0 then (.error (), true)
             else (.ok { d0 with itemId := jsOr d0.itemId (jsOr ((extractItemId url).getD "") "unknown") }, true)) := by
          simp [fetchEbayItem, hscrape, hid, happi]
        cases e0
        by_cases hc : d0.title = "" ∨ d0.price = 0
        · rw [if_pos hc] at hfe
          rw [hfe]
          exact ⟨fun _ => ⟨rfl, rfl⟩, by simp, by simp⟩
        · rw [if_neg hc] at hfe
          rw [hfe]
          push_neg at hc
          refine ⟨fun _ => ⟨rfl, rfl⟩, ?_, ?_⟩
          · intro data hdata
            injection hdata with h2
            constructor
            · rw [← h2]; exact hc.1
            · rw [← h2]; exact hc.2
          · intro data hdata
            injection hdata with h2
            obtain ⟨happ, item, hitem, e1, e2, e3, e4⟩ :=
              fetchWithAPI_some_inv appId apiResp iid d0 happi
            exact Or.inr ⟨item, hitem, happ, by rw [← h2]; exact e1,
              by rw [← h2]; exact e2, by rw [← h2]; exact e4⟩

/-- C7 counterexample: page extraction fails, the URL parses as /itm/123456789,
and the API returns an item with price 17 and no title; `fetchEbayItem`
returns fabricated title `Unknown Product`, taken from no fetched source. -/
theorem C7_counterexample :
    (fetchEbayItem cx7Url (.error ()) true (.ok (some cx7ApiItem))).1 =
      .ok { title := "Unknown Product", price := 17, stock := .in_stock, images := [],
            itemId := "123456789", description := "", variations := [] } ∧
    cx7ApiItem.title = none ∧
    (fetchEbayItem cx7Url (.error ()) true (.ok (some cx7ApiItem))).2 = true := by
  have hid : extractItemId cx7Url = some "123456789" := by decide
  have hne : ¬("Unknown Product" = "") := by decide
  have hne2 : ¬("123456789" = "") := by decide
  refine ⟨?_, rfl, ?_⟩ <;>
    norm_num [fetchEbayItem, fetchWithScraping, fetchWithAPI, hid, jsOr, cx7ApiItem,
      hne, hne2]

/-- C8 counterexample: a JSON-LD candidate containing `http` and 56 characters
long is returned as the seller id — the structured-data strategy applies no
length or http validation and the rejected-candidate fall-through does not
happen (the valid `goodseller` profile-link candidate is never reached). -/
theorem C8_counterexample :
    extractSellerIdFromStorefront cx8Page = some cx8Candidate ∧
    containsHttp cx8Candidate = true ∧
    ¬(cx8Candidate.length < 50) ∧
    candidateOk "goodseller" = true := by decide

/-- A rejected social-meta candidate yields none, i.e. falls through. -/
theorem twitterCandidate_rejected (c : String) (h : candidateOk c = false) :
    twitterCandidate (some c) = none := by
  unfold twitterCandidate truthy
  by_cases hc : c = ""
  · simp [hc]
  · simp [hc, h]

/-- A rejected DOM-marker candidate yields none, i.e. falls through. -/
theorem domCandidate_rejected (c : String) (h : candidateOk c = false) :
    domCandidate (some c) = none := by
  unfold domCandidate truthy
  by_cases hc : c = ""
  · simp [hc]
  · simp [hc, h]

/-- A rejected inline-script capture is skipped in favour of later captures. -/
theorem firstScriptCandidate_rejected (c : String) (cs : List String)
    (h : scriptCandidateOk c = false) :
    firstScriptCandidate (c :: cs) = firstScriptCandidate cs := by
  simp [firstScriptCandidate, h]

/-- A rejected profile-link username is skipped in favour of later links. -/
theorem firstLinkCandidate_rejected (c : String) (cs : List String)
    (h : candidateOk c = false) :
    firstLinkCandidate (c :: cs) = firstLinkCandidate cs := by
  simp [firstLinkCandidate, h]

/-- C8 (amended): the extraction result is never the platform brand name
(`eBay`/`eBay UK`); for the social-meta, DOM-marker, inline-script and
profile-link strategies a candidate rejected by the validation rules (empty,
brand, ≥ 50 characters; plus a literal-http test for the inline-script
strategy only) falls through to the next strategy.  Structured-data (JSON-LD)
candidates bypass the length and http checks entirely and a brand-valued one
yields null rather than falling through, as the counterexample shows. -/
theorem C8_seller_extraction_amended :
    (∀ (p : StorefrontPage) (c : String),
      extractSellerIdFromStorefront p = some c → c ≠ "eBay" ∧ c ≠ "eBay UK") ∧
    (∀ (p : StorefrontPage) (c : String), p.twitterCreator = some c →
      candidateOk c = false →
      extractSellerIdFromStorefront p =
        extractSellerIdFromStorefront { p with twitterCreator := none }) ∧
    (∀ (p : StorefrontPage) (c : String), p.mbgIdSpan = some c →
      candidateOk c = false →
      extractSellerIdFromStorefront p =
        extractSellerIdFromStorefront { p with mbgIdSpan := none }) ∧
    (∀ (p : StorefrontPage) (c : String) (cs : List String),
      p.scriptCandidates = c :: cs → scriptCandidateOk c = false →
      extractSellerIdFromStorefront p =
        extractSellerIdFromStorefront { p with scriptCandidates := cs }) ∧
    (∀ (p : StorefrontPage) (c : String) (cs : List String),
      p.sellerLinkUsernames = c :: cs → candidateOk c = false →
      extractSellerIdFromStorefront p =
        extractSellerIdFromStorefront { p with sellerLinkUsernames := cs }) := by
  refine ⟨?_, ?_, ?_, ?_, ?_⟩
  · intro p c h
    unfold extractSellerIdFromStorefront at h
    cases he : evaluateSellerId p with
    | none => rw [he] at h; exact absurd h (by simp)
    | some s =>
      rw [he] at h
      have h2 : (if (decide (s ≠ "") && brandOk s) = true then some s else none) =
          some c := h
      by_cases hb : (decide (s ≠ "") && brandOk s) = true
      · rw [if_pos hb] at h2
        injection h2 with h3
        subst h3
        simp only [brandOk, Bool.and_eq_true, decide_eq_true_eq] at hb
        exact ⟨hb.2.2, hb.2.1⟩
      · rw [if_neg hb] at h2
        exact absurd h2 (by simp)
  · intro p c hpc hrej
    unfold extractSellerIdFromStorefront evaluateSellerId domChain
    rw [hpc, twitterCandidate_rejected c hrej]
    try rfl
  · intro p c hpc hrej
    unfold extractSellerIdFromStorefront evaluateSellerId domChain
    rw [hpc, domCandidate_rejected c hrej]
    try rfl
  · intro p c cs hpc hrej
    unfold extractSellerIdFromStorefront evaluateSellerId domChain
    rw [hpc, firstScriptCandidate_rejected c cs hrej]
    try rfl
  · intro p c cs hpc hrej
    unfold extractSellerIdFromStorefront evaluateSellerId domChain
    rw [hpc, firstLinkCandidate_rejected c cs hrej]
    try rfl

/-- Witness for the amended C8: a brand-valued meta candidate falls through. -/
theorem C8_seller_extraction_amended_witness :
    extractSellerIdFromStorefront
        { cx8Page with jsonLd := [], twitterCreator := some "eBay" } =
      extractSellerIdFromStorefront
        { cx8Page with jsonLd := [], twitterCreator := none } :=
  C8_seller_extraction_amended.2.1
    { cx8Page with jsonLd := [], twitterCreator := some "eBay" } "eBay" rfl (by decide)

/-- One-step unfolding of the pagination loop. -/
theorem scrapeGo_succ (pages : ℕ → List ListingAnchor) (fuel start : ℕ) :
    scrapeGo pages (fuel + 1) start =
      (if evalListingPage (pages start) = [] then ([], 1)
       else (evalListingPage (pages start) ++ (scrapeGo pages fuel (start + 1)).1,
             (scrapeGo pages fuel (start + 1)).2 + 1)) := rfl

/-- The pagination loop visits at least one and at most `fuel` pages, visits a
further page only after a non-empty page, stops early exactly on an empty
page, and returns the concatenation of the per-page evaluations. -/
theorem scrapeGo_spec (pages : ℕ → List ListingAnchor) :
    ∀ (fuel start : ℕ), 1 ≤ fuel →
      1 ≤ (scrapeGo pages fuel start).2 ∧
      (scrapeGo pages fuel start).2 ≤ fuel ∧
      (∀ k, start ≤ k → k + 1 < start + (scrapeGo pages fuel start).2 →
        evalListingPage (pages k) ≠ []) ∧
      ((scrapeGo pages fuel start).2 < fuel →
        evalListingPage (pages (start + (scrapeGo pages fuel start).2 - 1)) = []) ∧
      (scrapeGo pages fuel start).1 =
        (List.range' start (scrapeGo pages fuel start).2).flatMap
          (fun k => evalListingPage (pages k)) := by
  intro fuel
  induction fuel with
  | zero => intro start h; omega
  | succ n ih =>
    intro start _
    by_cases he : evalListingPage (pages start) = []
    · rw [scrapeGo_succ, if_pos he]
      refine ⟨by norm_num, by norm_num, ?_, ?_, ?_⟩
      · intro k hk1 hk2
        exact absurd hk2 (by omega)
      · intro _
        simpa using he
      · simp [he]
    · rcases Nat.eq_zero_or_pos n with hn | hn
      · subst hn
        rw [scrapeGo_succ, if_neg he]
        refine ⟨by norm_num, by norm_num [scrapeGo], ?_, ?_, ?_⟩
        · intro k hk1 hk2
          have : k = start := by simp [scrapeGo] at hk2 ⊢; omega
          rwa [this]
        · intro hlt
          exact absurd hlt (by norm_num [scrapeGo])
        · simp [scrapeGo]
      · obtain ⟨ih1, ih2, ih3, ih4, ih5⟩ := ih (start + 1) hn
        rw [scrapeGo_succ, if_neg he]
        refine ⟨by norm_num, by simpa using ih2, ?_, ?_, ?_⟩
        · intro k hk1 hk2
          rcases Nat.eq_or_lt_of_le hk1 with hk | hk
          · rwa [← hk]
          · exact ih3 k (by omega) (by simpa using (by omega :
              k + 1 < start + 1 + (scrapeGo pages n (start + 1)).2))
        · intro hlt
          have h2 : (scrapeGo pages n (start + 1)).2 < n := by simpa using hlt
          have := ih4 h2
          have harith : start + 1 + (scrapeGo pages n (start + 1)).2 - 1 =
              start + ((scrapeGo pages n (start + 1)).2 + 1) - 1 := by omega
          rwa [harith] at this
        · show evalListingPage (pages start) ++ (scrapeGo pages n (start + 1)).1 =
            (List.range' start ((scrapeGo pages n (start + 1)).2 + 1)).flatMap
              (fun k => evalListingPage (pages k))
          rw [List.range'_succ, ih5]
          simp

/-- Within one page evaluation the item ids are deduplicated: the produced
ids are pairwise distinct and avoid the `seen` set. -/
theorem evalListingGo_nodup (as : List ListingAnchor) :
    ∀ seen : List String,
      ((evalListingGo as seen).map (fun i => i.itemId)).Nodup ∧
      (∀ i ∈ evalListingGo as seen, i.itemId ∉ seen) := by
  induction as with
  | nil => intro seen; simp [evalListingGo]
  | cons a as ih =>
    intro seen
    by_cases hmem : a.itemId ∈ seen
    · simpa [evalListingGo, hmem] using ih seen
    · obtain ⟨ihn, ihs⟩ := ih (a.itemId :: seen)
      simp only [evalListingGo, hmem, if_false, if_neg hmem]
      constructor
      · simp only [List.map_cons, List.nodup_cons]
        refine ⟨?_, ihn⟩
        intro hcontra
        simp only [List.mem_map] at hcontra
        obtain ⟨i, hi, hid⟩ := hcontra
        exact (ihs i hi) (by rw [hid]; exact List.mem_cons_self _ _)
      · intro i hi
        rcases List.mem_cons.mp hi with h1 | h1
        · rw [h1]
          exact hmem
        · intro hcontra
          exact (ihs i h1) (List.mem_cons_of_mem _ hcontra)

/-- C9 counterexample: pages 1 and 2 both expose item 123 and page 3 is empty;
the returned list contains the item twice (no cross-page deduplication) and
three pages are visited (a page of only already-seen items does not stop
pagination). -/
theorem C9_counterexample :
    (scrapeStoreListings cx9Pages 5).1 =
      some [⟨"123", "Thing", 0, []⟩, ⟨"123", "Thing", 0, []⟩] ∧
    ¬((([(⟨"123", "Thing", 0, []⟩ : ListingItem), ⟨"123", "Thing", 0, []⟩]).map
        (fun i => i.itemId)).Nodup) ∧
    (scrapeStoreListings cx9Pages 5).2 = 3 := by
  refine ⟨by decide, by decide, by decide⟩

/-- C9 (amended): `scrapeStoreListings` visits pages 1..N (cap `maxPages`,
default 5), pages beyond the first are visited only after a page that yielded
items, pagination stops early exactly when a page yields zero items (not zero
*new* items), the result is the concatenation of the per-page item lists
(null when empty), and item ids are deduplicated within each page only — not
across pages, as the counterexample shows. -/
theorem C9_scrapeStoreListings_amended (pages : ℕ → List ListingAnchor) (maxPages : ℕ)
    (hmp : 1 ≤ maxPages) :
    (1 ≤ (scrapeStoreListings pages maxPages).2 ∧
     (scrapeStoreListings pages maxPages).2 ≤ maxPages) ∧
    (∀ k, 1 ≤ k → k + 1 < 1 + (scrapeStoreListings pages maxPages).2 →
      evalListingPage (pages k) ≠ []) ∧
    ((scrapeStoreListings pages maxPages).2 < maxPages →
      evalListingPage (pages ((scrapeStoreListings pages maxPages).2)) = []) ∧
    (scrapeStoreListings pages maxPages).1 =
      (if (List.range' 1 (scrapeStoreListings pages maxPages).2).flatMap
          (fun k => evalListingPage (pages k)) = [] then none
       else some ((List.range' 1 (scrapeStoreListings pages maxPages).2).flatMap
          (fun k => evalListingPage (pages k)))) ∧
    (∀ anchors, ((evalListingPage anchors).map (fun i => i.itemId)).Nodup) := by
  obtain ⟨h1, h2, h3, h4, h5⟩ := scrapeGo_spec pages maxPages 1 hmp
  have hv : (scrapeStoreListings pages maxPages).2 = (scrapeGo pages maxPages 1).2 := rfl
  refine ⟨⟨by rw [hv]; exact h1, by rw [hv]; exact h2⟩, ?_, ?_, ?_, ?_⟩
  · intro k hk1 hk2
    exact h3 k hk1 (by rw [hv] at hk2; omega)
  · intro hlt
    rw [hv] at hlt
    have := h4 hlt
    rwa [show 1 + (scrapeGo pages maxPages 1).2 - 1 = (scrapeGo pages maxPages 1).2
      from by omega] at this
  · show (if (scrapeGo pages maxPages 1).1 ≠ [] then some (scrapeGo pages maxPages 1).1
        else none) = _
    rw [hv, h5]
    by_cases hemp : (List.range' 1 (scrapeGo pages maxPages 1).2).flatMap
        (fun k => evalListingPage (pages k)) = []
    · simp [hemp]
    · simp [hemp]
  · intro anchors
    exact (evalListingGo_nodup anchors []).1

/-- Witness for the amended C7: scraping succeeds with title T and price 5, no
API involvement; the returned data has non-empty title and non-zero price. -/
theorem C7_fetchEbayItem_amended_witness :
    ({ title := "T", price := 5, stock := .in_stock, images := [], itemId := "unknown",
       description := "", variations := [] } : EbayItemData).title ≠ "" ∧
    ({ title := "T", price := 5, stock := .in_stock, images := [], itemId := "unknown",
       description := "", variations := [] } : EbayItemData).price ≠ 0 :=
  (C7_fetchEbayItem_amended "u" (.ok ⟨"T", 5, .in_stock, [], "", "", []⟩) false
    (.error ())).2.1
    { title := "T", price := 5, stock := .in_stock, images := [], itemId := "unknown",
      description := "", variations := [] }
    (by
      have hne : ¬("T" = "") := by decide
      have hne2 : ¬("unknown" = "") := by decide
      norm_num [fetchEbayItem, fetchWithScraping, extractItemId, firstCapture,
        captureItemParam, jsOr, startsWithChars, leadingDigits, hne, hne2])

/-- Witness for the amended C9 at the concrete page set. -/
theorem C9_scrapeStoreListings_amended_witness :
    1 ≤ (scrapeStoreListings cx9Pages 5).2 ∧ (scrapeStoreListings cx9Pages 5).2 ≤ 5 :=
  (C9_scrapeStoreListings_amended cx9Pages 5 (by norm_num)).1

end EbayBackend
